import Mathlib

/-!
Shallow embedding of the Device Simulation & Alerting Engine of
`iot_server.py` (Real-Time-IoT-Dashboard), together with proofs checking
the natural-language specification against the code.

Modelling conventions:
* Python `float` values are idealised as exact rationals `ℚ`; the decimal
  literals of the source (`0.1`, `0.2`, `0.5`) are the exact rationals
  `1/10`, `2/10`, `1/2`.
* Python `dict`s are insertion-ordered association lists; `alookup` is
  `dict.get`, `aset` is item assignment, `adel` is `del`.
* Python's `round(x, 2)` (round to nearest multiple of `1/100`, ties to
  even) is `round2`.
* Python `str.lower` / `str.strip` are `lowerStr` / `trimStr`, restricted
  to the ASCII letters / ASCII whitespace that device ids use.
* Each `threading.Thread` subclass becomes a structure holding its
  instance fields; one iteration of `DynamicSimulatedDevice.run`'s loop is
  `runTick`, with the per-metric draws of `random.random()` supplied as a
  function from the metric name (metric names are unique within a device);
  one call of `WeatherStationDevice._fetch_weather_data` is
  `fetch_weather_data`, with the network outcome supplied as a value of
  `FetchOutcome`.
-/

/-- ASCII lowering of one character (model of Python `str.lower` on the
ASCII ids this app uses). -/
def lowerChar (c : Char) : Char :=
  if 'A' ≤ c ∧ c ≤ 'Z' then Char.ofNat (c.toNat + 32) else c

/-- Model of Python `str.lower` (ASCII). -/
def lowerStr (s : String) : String := String.mk (s.data.map lowerChar)

/-- Model of Python `str.strip` (remove leading/trailing whitespace). -/
def trimStr (s : String) : String :=
  String.mk (((s.data.dropWhile Char.isWhitespace).reverse.dropWhile
    Char.isWhitespace).reverse)

/-- `dict.get k` on an insertion-ordered association list. -/
def alookup {α : Type} (k : String) : List (String × α) → Option α
  | [] => none
  | (k', v) :: rest => if k' = k then some v else alookup k rest

/-- `d[k] = v` on an insertion-ordered association list: overwrite in
place, or append at the end for a fresh key (Python dict semantics). -/
def aset {α : Type} (k : String) (v : α) : List (String × α) → List (String × α)
  | [] => [(k, v)]
  | (k', v') :: rest => if k' = k then (k', v) :: rest else (k', v') :: aset k v rest

/-- `del d[k]` on an association list. -/
def adel {α : Type} (k : String) : List (String × α) → List (String × α)
  | [] => []
  | (k', v') :: rest => if k' = k then rest else (k', v') :: adel k rest

/-- `k in d` on an association list. -/
def containsKey {α : Type} (k : String) (l : List (String × α)) : Bool :=
  (alookup k l).isSome

/-- Integer that Python's `round` produces for a rational: nearest
integer, ties to even. -/
def pyRoundInt (s : ℚ) : ℤ :=
  if s - ⌊s⌋ < 1/2 then ⌊s⌋
  else if 1/2 < s - ⌊s⌋ then ⌊s⌋ + 1
  else if ⌊s⌋ % 2 = 0 then ⌊s⌋ else ⌊s⌋ + 1

/-- Model of Python `round(q, 2)`: round to the nearest multiple of
`1/100`, ties to even. -/
def round2 (q : ℚ) : ℚ := (pyRoundInt (q * 100) : ℚ) / 100

/-- One metric definition `{'name': .., 'unit': .., 'min': .., 'max': ..}`. -/
structure Metric where
  name : String
  unit : String
  min : ℚ
  max : ℚ
deriving DecidableEq

/-- One per-metric alert threshold dict `{'min': .., 'max': ..}` (either
key may be absent). -/
structure AlertSetting where
  min : Option ℚ
  max : Option ℚ
deriving DecidableEq

/-- A device config dict `{"alerts": {...}}`; keys of `alerts` are metric
names. -/
structure DeviceConfig where
  alerts : List (String × AlertSetting)
deriving DecidableEq

/-- The alert description string: `high_alert (>B)` or `low_alert (<B)`,
modelled structurally (kind plus the bound interpolated into the text). -/
inductive AlertMsg
  | high (bound : ℚ)
  | low (bound : ℚ)
deriving DecidableEq

/-- One entry of `data_history`: the dict
`{device_id, device_type, timestamp, **values}`. -/
structure Reading where
  device_id : String
  device_type : String
  timestamp : String
  values : List (String × ℚ)
deriving DecidableEq

/-- `data_history.append(r)` followed by `if len > 100: pop(0)` — the
bounded FIFO append shared by both device classes (lines 63-68 and
117-122 of `iot_server.py`). -/
def appendHistory (h : List Reading) (r : Reading) : List Reading :=
  if 100 < (h ++ [r]).length then (h ++ [r]).tail else h ++ [r]

/-- Appending a whole sequence of readings to an initially empty history,
one `appendHistory` at a time. -/
def foldHistory (rs : List Reading) : List Reading := rs.foldl appendHistory []


/-- Alert evaluation for one metric (lines 54-58): if a `max` bound is
configured and the new (full-precision) value exceeds it, a high-alert;
`elif` a `min` bound is configured and the value is below it, a
low-alert; else no alert. -/
def evalAlert (ac : AlertSetting) (v : ℚ) : Option AlertMsg :=
  match ac.max with
  | some hi => if hi < v then some (.high hi)
               else match ac.min with
                    | some lo => if v < lo then some (.low lo) else none
                    | none => none
  | none => match ac.min with
            | some lo => if v < lo then some (.low lo) else none
            | none => none

/-- The clamp of line 50:
`max(min - range*0.2, min(max + range*0.2, v))`. -/
def clampBand (m : Metric) (v : ℚ) : ℚ :=
  max (m.min - (m.max - m.min) * (2/10)) (min (m.max + (m.max - m.min) * (2/10)) v)

/-- Lines 48-50: perturb the previous value by
`(max - min) * 0.1 * (u - 0.5)` — `u` the draw of `random.random()` —
then clamp to the overshoot band. -/
def newValue (m : Metric) (prev u : ℚ) : ℚ :=
  clampBand m (prev + (m.max - m.min) * (1/10) * (u - 1/2))

/-- The simulated-device class: one `DynamicSimulatedDevice` instance's
fields. -/
structure DynamicSimulatedDevice where
  device_id : String
  device_type : String
  metrics : List Metric
  config : DeviceConfig
  data_history : List Reading
  latest_data_values : List (String × ℚ)
  status : String
  alerts : List (String × AlertMsg)
  running : Bool
deriving DecidableEq

/-- `DynamicSimulatedDevice.__init__` (lines 28-39): `config or
{"alerts": {}}`, empty history, latest values at the range midpoints,
status `Online`, no alerts. -/
def mkDynamicDevice (device_id device_type : String) (metrics : List Metric)
    (config : Option DeviceConfig) : DynamicSimulatedDevice :=
  { device_id := device_id
    device_type := device_type
    metrics := metrics
    config := config.getD ⟨[]⟩
    data_history := []
    latest_data_values := metrics.map (fun m => (m.name, (m.min + m.max) / 2))
    status := "Online"
    alerts := []
    running := true }

/-- The body of the `for metric in self.metrics` loop (lines 45-58),
threading `(latest_data_values, current_values, alerts)` through one
metric. `current_values` and `alerts` are built in insertion order. The
lookup `self.latest_data_values[metric_name]` is totalised with `getD 0`;
in Python a missing key would raise, but `__init__` populates every
metric name, and the theorems below only use the populated case. -/
def tickStep (cfg : DeviceConfig) (u : String → ℚ)
    (acc : List (String × ℚ) × List (String × ℚ) × List (String × AlertMsg))
    (m : Metric) :
    List (String × ℚ) × List (String × ℚ) × List (String × AlertMsg) :=
  let current_val := (alookup m.name acc.1).getD 0
  let new_val := newValue m current_val (u m.name)
  let alert_config := (alookup m.name cfg.alerts).getD ⟨none, none⟩
  ⟨aset m.name new_val acc.1,
   acc.2.1 ++ [(m.name, round2 new_val)],
   acc.2.2 ++ ((evalAlert alert_config new_val).map (fun msg => (m.name, msg))).toList⟩

/-- One iteration of `DynamicSimulatedDevice.run`'s `while` loop (lines
42-68): reset alerts, update every metric, set status from the alerts,
append the Reading of rounded values to the bounded history. `u` supplies
the `random.random()` draw used for each metric (keyed by the metric's
name), `ts` the `time.strftime` timestamp. -/
def runTick (d : DynamicSimulatedDevice) (u : String → ℚ) (ts : String) :
    DynamicSimulatedDevice :=
  let res := d.metrics.foldl (tickStep d.config u) (d.latest_data_values, [], [])
  { d with
    latest_data_values := res.1
    alerts := res.2.2
    status := if res.2.2 = [] then "Online" else "Alert"
    data_history := appendHistory d.data_history
      ⟨d.device_id, d.device_type, ts, res.2.1⟩ }

/-- The weather-station class: one `WeatherStationDevice` instance's
fields. -/
structure WeatherStationDevice where
  device_id : String
  device_type : String
  metrics : List Metric
  config : DeviceConfig
  data_history : List Reading
  status : String
  alerts : List (String × AlertMsg)
  running : Bool
deriving DecidableEq

/-- `WeatherStationDevice.__init__` (lines 90-100). -/
def mkWeatherStation (device_id device_type : String) : WeatherStationDevice :=
  { device_id := device_id
    device_type := device_type
    metrics := [⟨"rainfall", "mm", 0, 10⟩]
    config := ⟨[]⟩
    data_history := []
    status := "Initializing"
    alerts := []
    running := true }

/-- Outcome of the `requests.get` call in `_fetch_weather_data`:
HTTP 200 with a parsed JSON body (`rain` is
`body.get('current', {}).get('rain')`, `none` when the key is absent),
a reachable non-200 response, or a raised `requests.RequestException`. -/
inductive FetchOutcome
  | ok (rain : Option ℚ)
  | httpError
  | transportFailure
deriving DecidableEq

/-- One call of `WeatherStationDevice._fetch_weather_data` (lines
102-122): `rainfall` starts at `-1` and is replaced only on success;
status becomes `Online` / `API Error` / `Offline` by outcome; one Reading
with the rounded rainfall is appended to the bounded history. -/
def fetch_weather_data (w : WeatherStationDevice) (o : FetchOutcome)
    (ts : String) : WeatherStationDevice :=
  { w with
    status := match o with
      | .ok _ => "Online"
      | .httpError => "API Error"
      | .transportFailure => "Offline"
    data_history := appendHistory w.data_history
      ⟨w.device_id, w.device_type, ts,
       [("rainfall", round2 (match o with | .ok rain => rain.getD 0 | _ => -1))]⟩ }

/-- A registered device: one of the two thread classes. -/
inductive Device
  | dynamic (d : DynamicSimulatedDevice)
  | weather (w : WeatherStationDevice)
deriving DecidableEq

/-- The `data_history` attribute of either class. -/
def Device.data_history : Device → List Reading
  | .dynamic d => d.data_history
  | .weather w => w.data_history

/-- `update_config`: the dynamic class replaces `self.config` (line 86);
the weather class's override is `pass` (line 143). -/
def Device.update_config : Device → DeviceConfig → Device
  | .dynamic d, new_config => .dynamic { d with config := new_config }
  | .weather w, _ => .weather w

/-- The global `DEVICES` dict: device id → device object, insertion
ordered. -/
abbrev Registry := List (String × Device)

/-- `get_latest_data` (lines 75-77 / 133-135): last history entry, or
`none` for the empty dict `{}`. -/
def Device.get_latest_data (dv : Device) : Option Reading :=
  dv.data_history.getLast?

/-- The dict returned by `get_history_for_plot` (lines 79-83):
a timestamps array plus one aligned array per metric; a metric missing
from a reading reports `none`. -/
structure PlotHistory where
  timestamps : List String
  series : List (String × List (Option ℚ))
deriving DecidableEq

/-- `DynamicSimulatedDevice.get_history_for_plot` (lines 79-83). -/
def get_history_for_plot (d : DynamicSimulatedDevice) : PlotHistory :=
  ⟨d.data_history.map Reading.timestamp,
   d.metrics.map (fun m => (m.name, d.data_history.map (fun r => alookup m.name r.values)))⟩

/-- `WeatherStationDevice.get_history_for_plot` (lines 137-140). -/
def weather_history_for_plot (w : WeatherStationDevice) : PlotHistory :=
  ⟨w.data_history.map Reading.timestamp,
   [("rainfall", w.data_history.map (fun r => alookup "rainfall" r.values))]⟩

/-- One element of the `/api/devices` response array (lines 497-502). -/
structure DeviceView where
  device_id : String
  device_type : String
  metrics : List Metric
  config : DeviceConfig
  latest_data : Option Reading
  history : PlotHistory
  status : String
  alerts : List (String × AlertMsg)
deriving DecidableEq

/-- The response entry built for one device by `get_all_devices`. -/
def Device.view : Device → DeviceView
  | .dynamic d =>
    ⟨d.device_id, d.device_type, d.metrics, d.config, d.data_history.getLast?,
     get_history_for_plot d, d.status, d.alerts⟩
  | .weather w =>
    ⟨w.device_id, w.device_type, w.metrics, w.config, w.data_history.getLast?,
     weather_history_for_plot w, w.status, w.alerts⟩

/-- `GET /api/devices` (lines 491-503): an entry for every registered
device **whose `data_history` is non-empty**, sorted by `device_id`. -/
def get_all_devices (reg : Registry) : List DeviceView :=
  (reg.filterMap (fun p =>
      if p.2.data_history = [] then none else some p.2.view)).mergeSort
    (fun a b => decide (a.device_id ≤ b.device_id))

/-- `start_dynamic_device` (lines 549-552): construct, start the thread,
and insert under the lower-cased id. -/
def start_dynamic_device (reg : Registry) (device_id device_type : String)
    (metrics : List Metric) (config : Option DeviceConfig) : Registry :=
  aset (lowerStr device_id)
    (.dynamic (mkDynamicDevice (lowerStr device_id) device_type metrics config)) reg

/-- The error taxonomy of `POST /api/devices`. -/
inductive AddOutcome
  | created
  | invalidRequest
  | duplicateId
deriving DecidableEq

/-- `add_device` (lines 513-522): normalise the id with
`strip().lower()`; HTTP 400 when the id or the metric list is empty;
HTTP 409 when the id is already registered; otherwise register a new
dynamic device. -/
def add_device (reg : Registry) (raw_id device_type : String)
    (metrics : List Metric) : AddOutcome × Registry :=
  let device_id := lowerStr (trimStr raw_id)
  if device_id = "" ∨ metrics = [] then (.invalidRequest, reg)
  else if containsKey device_id reg then (.duplicateId, reg)
  else (.created, start_dynamic_device reg device_id device_type metrics none)

/-- The outcome taxonomy of the two per-device mutating endpoints. -/
inductive MutOutcome
  | ok
  | forbidden
  | notFound
deriving DecidableEq

/-- `delete_device` (lines 524-534): lower-case the id; HTTP 403 for the
permanent `pachora-weather` id before the registry is consulted; then
stop and remove the device if present, else HTTP 404. -/
def delete_device (reg : Registry) (raw_id : String) : MutOutcome × Registry :=
  let device_id := lowerStr raw_id
  if device_id = "pachora-weather" then (.forbidden, reg)
  else if containsKey device_id reg then (.ok, adel device_id reg)
  else (.notFound, reg)

/-- `configure_device` (lines 536-546): lower-case the id; HTTP 403 for
the permanent `pachora-weather` id before the registry is consulted; then
`update_config` on the device if present, else HTTP 404. -/
def configure_device (reg : Registry) (raw_id : String) (data : DeviceConfig) :
    MutOutcome × Registry :=
  let device_id := lowerStr raw_id
  if device_id = "pachora-weather" then (.forbidden, reg)
  else match alookup device_id reg with
    | some dev => (.ok, aset device_id (dev.update_config data) reg)
    | none => (.notFound, reg)

/-- One saved entry of `iot_platform_state.json`:
`{device_type, metrics, config}` (line 475) — definitions only, no
history and no runtime status. -/
structure SavedDeviceInfo where
  device_type : String
  metrics : List Metric
  config : DeviceConfig
deriving DecidableEq

/-- `save_state` (lines 470-477): the saved file maps each id bound to a
`DynamicSimulatedDevice` to its `{device_type, metrics, config}`; devices
of the weather class are skipped. -/
def save_state (reg : Registry) : List (String × SavedDeviceInfo) :=
  reg.filterMap (fun p => match p.2 with
    | .dynamic d => some (p.1, ⟨d.device_type, d.metrics, d.config⟩)
    | .weather _ => none)

/-- `load_state` (lines 479-486) on a well-formed file: start a dynamic
device for every saved entry, into an initially empty registry. -/
def load_state (file : List (String × SavedDeviceInfo)) : Registry :=
  file.foldl
    (fun reg p => start_dynamic_device reg p.1 p.2.device_type p.2.metrics (some p.2.config))
    []

/-- Resetting a device's runtime fields (history, status, alerts, latest
values) while keeping its definition `{id, type, metrics, config}`. -/
def Device.clearRuntime : Device → Device
  | .dynamic d => .dynamic { d with
      data_history := []
      status := "Online"
      alerts := []
      latest_data_values := [] }
  | .weather w => .weather { w with
      data_history := []
      status := "Initializing"
      alerts := [] }

/-- Lock/persistence events of one request handler, in program order:
acquiring `DEVICE_LOCK` (entering `with DEVICE_LOCK`), releasing it, and
the durable file write of `save_state` (lines 476-477). -/
inductive LockEv
  | acq
  | rel
  | persistWrite
deriving DecidableEq

/-- `save_state` (lines 470-477): takes `DEVICE_LOCK` to snapshot the
definitions, releases it, then writes the file. -/
def save_state_trace : List LockEv := [.acq, .rel, .persistWrite]

/-- `add_device` (lines 513-522): the 400 check touches no lock; the
duplicate check and the insert run under the lock; `save_state()` runs
after the `with` block exits. -/
def add_device_trace (invalid dup : Bool) : List LockEv :=
  if invalid then []
  else if dup then [.acq, .rel]
  else [.acq, .rel] ++ save_state_trace

/-- `delete_device` (lines 524-534): the 403 check touches no lock; on a
hit, `save_state()` is called **inside** the `with DEVICE_LOCK` block
(line 532), so its events sit between this handler's acquire and
release. -/
def delete_device_trace (permanent found : Bool) : List LockEv :=
  if permanent then []
  else if found then [.acq] ++ save_state_trace ++ [.rel]
  else [.acq, .rel]

/-- `configure_device` (lines 536-546): same shape as `delete_device`;
on a hit, `save_state()` is called inside the `with` block (line 544). -/
def configure_device_trace (permanent found : Bool) : List LockEv :=
  if permanent then []
  else if found then [.acq] ++ save_state_trace ++ [.rel]
  else [.acq, .rel]

/-- Whether some durable write happens while the lock depth is positive.
The first argument is the lock depth already held. -/
def writeUnderLock : ℕ → List LockEv → Bool
  | _, [] => false
  | n, .acq :: r => writeUnderLock (n + 1) r
  | n, .rel :: r => writeUnderLock (n - 1) r
  | n, .persistWrite :: r => decide (0 < n) || writeUnderLock n r

/-- Whether the (non-reentrant) lock is ever acquired while already held
— with `threading.Lock` this is a self-deadlock. -/
def acquiresHeldLock : ℕ → List LockEv → Bool
  | _, [] => false
  | n, .acq :: r => decide (0 < n) || acquiresHeldLock (n + 1) r
  | n, .rel :: r => acquiresHeldLock (n - 1) r
  | n, .persistWrite :: r => acquiresHeldLock n r

/-- Concrete fixture for C1: 101 pairwise-distinct readings. -/
def fifoReadings : List Reading :=
  (List.range 101).map
    (fun i => ⟨"server-rack-01", "Server Room Sensor", "", [("temperature", (i : ℚ))]⟩)

/-- Concrete fixture for C2's counterexample: one metric `temperature`
with range `[20, 30]`, a configured max bound `24.9995`, and a previous
value `24.999`. -/
def boundaryDevice : DynamicSimulatedDevice :=
  { device_id := "server-rack-01"
    device_type := "Server Room Sensor"
    metrics := [⟨"temperature", "C", 20, 30⟩]
    config := ⟨[("temperature", ⟨none, some (49999/2000)⟩)]⟩
    data_history := []
    latest_data_values := [("temperature", 24999/1000)]
    status := "Online"
    alerts := []
    running := true }

/-- `random.random()` draw `0.5` — a zero perturbation. -/
def halfDraw : String → ℚ := fun _ => 1/2

/-- Concrete fixture for C2's amended theorem: max bound `25`, previous
value `27`. -/
def alertingDevice : DynamicSimulatedDevice :=
  { device_id := "server-rack-01"
    device_type := "Server Room Sensor"
    metrics := [⟨"temperature", "C", 20, 30⟩]
    config := ⟨[("temperature", ⟨none, some 25⟩)]⟩
    data_history := []
    latest_data_values := [("temperature", 27)]
    status := "Online"
    alerts := []
    running := true }

/-- Concrete fixture for C3's counterexample: metric range
`[0, 0.015]`, so the clamp band is `[-0.003, 0.018]` and its upper edge
is not a multiple of `0.01`; previous value `0.01745`. -/
def narrowDevice : DynamicSimulatedDevice :=
  { device_id := "flow-meter"
    device_type := "Flow Sensor"
    metrics := [⟨"flow", "l", 0, 3/200⟩]
    config := ⟨[]⟩
    data_history := []
    latest_data_values := [("flow", 349/20000)]
    status := "Online"
    alerts := []
    running := true }

/-- `random.random()` draw `0.99` — an almost maximal upward push. -/
def highDraw : String → ℚ := fun _ => 99/100

/-- Concrete fixture for C3's amended theorem. -/
def midDevice : DynamicSimulatedDevice :=
  mkDynamicDevice "rack-3" "Server Room Sensor" [⟨"temperature", "C", 20, 30⟩] none

/-- Concrete fixture for C4's counterexample: a registered device whose
history is still empty (it has not completed a tick yet). -/
def idleRegistry : Registry :=
  [("idle-dev", .dynamic (mkDynamicDevice "idle-dev" "Sensor" [⟨"temperature", "C", 20, 30⟩] none))]

/-- Concrete fixture for C6 and C7: a small dynamic device. -/
def rackDevice : DynamicSimulatedDevice :=
  mkDynamicDevice "rack-1" "Server Room Sensor" [⟨"temperature", "C", 20, 45⟩] none

/-- Concrete fixture for C6's witness: the permanent weather station plus
one dynamic device. -/
def mixedRegistry : Registry :=
  [("pachora-weather", .weather (mkWeatherStation "pachora-weather" "Real-Time Weather Station")),
   ("rack-1", .dynamic rackDevice)]

/-- Concrete fixture for C7: a registry already containing id `rack-1`. -/
def dupRegistry : Registry := [("rack-1", .dynamic rackDevice)]

/-- The full-precision value that the loop body computes for metric `m`
of a device whose `latest_data_values` is `latest`: the code's `new_val`
(line 50). -/
def metricNew (latest : List (String × ℚ)) (u : String → ℚ) (m : Metric) : ℚ :=
  newValue m ((alookup m.name latest).getD 0) (u m.name)

/-- `self.config.get('alerts', {}).get(metric_name, {})` (line 54). -/
def alertConfigOf (cfg : DeviceConfig) (m : Metric) : AlertSetting :=
  (alookup m.name cfg.alerts).getD ⟨none, none⟩

/-- The first of the 101 `fifoReadings`. -/
def firstFifoReading : Reading :=
  ⟨"server-rack-01", "Server Room Sensor", "", [("temperature", 0)]⟩
theorem appendHistory_length_le (h : List Reading) (r : Reading)
    (hle : h.length ≤ 100) : (appendHistory h r).length ≤ 100 := by
  unfold appendHistory
  split
  · next hgt =>
    simp only [List.length_tail, List.length_append, List.length_singleton]
    omega
  · next hgt =>
    simp only [List.length_append, List.length_singleton] at hgt ⊢
    omega

theorem appendHistory_eq_append (h : List Reading) (r : Reading)
    (hle : h.length ≤ 99) : appendHistory h r = h ++ [r] := by
  unfold appendHistory
  rw [if_neg]
  simp only [List.length_append, List.length_singleton]
  omega

theorem foldHistory_append_one (l : List Reading) (r : Reading) :
    foldHistory (l ++ [r]) = appendHistory (foldHistory l) r := by
  unfold foldHistory
  rw [List.foldl_append]
  rfl

theorem foldHistory_of_short (rs : List Reading) (h : rs.length ≤ 100) :
    foldHistory rs = rs := by
  induction rs using List.reverseRecOn with
  | nil => rfl
  | append_singleton l r ih =>
    have hl : l.length ≤ 99 := by
      simp only [List.length_append, List.length_singleton] at h
      omega
    rw [foldHistory_append_one, ih (by omega), appendHistory_eq_append l r hl]

theorem foldHistory_of_101 (rs : List Reading) (h : rs.length = 101) :
    foldHistory rs = rs.tail := by
  have hne : rs ≠ [] := by
    intro hnil; rw [hnil] at h; simp at h
  obtain ⟨l, r, rfl⟩ : ∃ l r, rs = l ++ [r] :=
    ⟨rs.dropLast, rs.getLast hne, (List.dropLast_append_getLast hne).symm⟩
  have hl : l.length = 100 := by
    simp only [List.length_append, List.length_singleton] at h
    omega
  rw [foldHistory_append_one, foldHistory_of_short l (by omega)]
  unfold appendHistory
  rw [if_pos]
  simp only [List.length_append, List.length_singleton]
  omega

theorem alookup_aset_self {α : Type} (k : String) (v : α) (l : List (String × α)) :
    alookup k (aset k v l) = some v := by
  induction l with
  | nil => simp [aset, alookup]
  | cons p rest ih =>
    by_cases h : p.1 = k
    · simp [aset, alookup, h]
    · simp [aset, alookup, h, ih]

theorem alookup_aset_ne {α : Type} (k k' : String) (v : α) (l : List (String × α))
    (h : k' ≠ k) : alookup k (aset k' v l) = alookup k l := by
  induction l with
  | nil => simp [aset, alookup, h]
  | cons p rest ih =>
    by_cases hp : p.1 = k'
    · simp [aset, alookup, hp, h]
    · simp only [aset, hp, if_false]
      by_cases hk : p.1 = k
      · simp [alookup, hk]
      · simp [alookup, hk, ih]

theorem alookup_append_of_none {α : Type} (k : String) (l1 l2 : List (String × α))
    (h : alookup k l1 = none) : alookup k (l1 ++ l2) = alookup k l2 := by
  induction l1 with
  | nil => simp
  | cons p rest ih =>
    by_cases hp : p.1 = k
    · simp [alookup, hp] at h
    · simp only [alookup, hp, if_false] at h
      simp [alookup, hp, ih h]

theorem alookup_append_left {α : Type} (k : String) (l1 l2 : List (String × α))
    (v : α) (h : alookup k l1 = some v) : alookup k (l1 ++ l2) = some v := by
  induction l1 with
  | nil => simp [alookup] at h
  | cons p rest ih =>
    by_cases hp : p.1 = k
    · simp [alookup, hp] at h ⊢
      exact h
    · simp only [alookup, hp, if_false] at h
      simp [alookup, hp, ih h]

theorem alookup_eq_none {α : Type} (k : String) (l : List (String × α))
    (h : ∀ p ∈ l, p.1 ≠ k) : alookup k l = none := by
  induction l with
  | nil => rfl
  | cons p rest ih =>
    have hp : p.1 ≠ k := h p (by simp)
    simp only [alookup, hp, if_false]
    exact ih (fun q hq => h q (by simp [hq]))

theorem aset_eq_append {α : Type} (k : String) (v : α) (l : List (String × α))
    (h : alookup k l = none) : aset k v l = l ++ [(k, v)] := by
  induction l with
  | nil => rfl
  | cons p rest ih =>
    by_cases hp : p.1 = k
    · simp [alookup, hp] at h
    · simp only [alookup, hp, if_false] at h
      simp [aset, hp, ih h]

theorem pyRoundInt_close (s : ℚ) : |(pyRoundInt s : ℚ) - s| ≤ 1/2 := by
  have h0 : ((⌊s⌋ : ℤ) : ℚ) ≤ s := Int.floor_le s
  have h1 : s < ((⌊s⌋ : ℤ) : ℚ) + 1 := Int.lt_floor_add_one s
  unfold pyRoundInt
  split
  · next hlt =>
    refine abs_le.2 ⟨?_, ?_⟩ <;> push_cast <;> linarith
  · next hge =>
    push_neg at hge
    split
    · next hgt =>
      refine abs_le.2 ⟨?_, ?_⟩ <;> push_cast <;> linarith
    · next hle2 =>
      push_neg at hle2
      split
      · next _ =>
        refine abs_le.2 ⟨?_, ?_⟩ <;> push_cast <;> linarith
      · next _ =>
        refine abs_le.2 ⟨?_, ?_⟩ <;> push_cast <;> linarith

theorem round2_close (q : ℚ) : |round2 q - q| ≤ 1/200 := by
  have h := pyRoundInt_close (q * 100)
  unfold round2
  have heq : (pyRoundInt (q * 100) : ℚ) / 100 - q
      = ((pyRoundInt (q * 100) : ℚ) - q * 100) / 100 := by ring
  rw [heq, abs_div, abs_of_pos (by norm_num : (0:ℚ) < 100),
    div_le_iff (by norm_num : (0:ℚ) < 100)]
  linarith

theorem round2_between {lo hi q : ℚ} (h1 : lo ≤ q) (h2 : q ≤ hi) :
    lo - 1/200 ≤ round2 q ∧ round2 q ≤ hi + 1/200 := by
  have h := abs_le.1 (round2_close q)
  exact ⟨by linarith [h.1], by linarith [h.2]⟩

theorem clampBand_mem (m : Metric) (v : ℚ) (h : m.min ≤ m.max) :
    m.min - (m.max - m.min) * (2/10) ≤ clampBand m v ∧
    clampBand m v ≤ m.max + (m.max - m.min) * (2/10) := by
  unfold clampBand
  refine ⟨le_max_left _ _, max_le (by linarith) (min_le_left _ _)⟩

theorem alookup_map_metrics {β : Type} (f : Metric → β) (ms : List Metric)
    (m : Metric) (hm : m ∈ ms) (hnd : (ms.map Metric.name).Nodup) :
    alookup m.name (ms.map (fun m' => (m'.name, f m'))) = some (f m) := by
  induction ms with
  | nil => cases hm
  | cons m0 t ih =>
    have hnd' : (∀ x ∈ t, ¬x.name = m0.name) ∧ (t.map Metric.name).Nodup := by
      simpa using hnd
    rcases List.mem_cons.1 hm with rfl | hmt
    · simp [alookup]
    · have hne : m0.name ≠ m.name := fun he => hnd'.1 m hmt he.symm
      simp only [List.map_cons, alookup, hne, if_false]
      exact ih hmt hnd'.2

theorem alookup_filterMap_none (g : Metric → Option AlertMsg) (ms : List Metric)
    (k : String) (h : k ∉ ms.map Metric.name) :
    alookup k (ms.filterMap (fun m' => (g m').map (fun msg => (m'.name, msg)))) = none := by
  induction ms with
  | nil => rfl
  | cons m0 t ih =>
    simp only [List.map_cons, List.mem_cons, not_or] at h
    rw [List.filterMap_cons]
    cases hg : g m0 with
    | none => simpa using ih h.2
    | some msg =>
      have hne : m0.name ≠ k := fun he => h.1 he.symm
      simp only [Option.map_some, alookup, hne, if_false]
      exact ih h.2

theorem alookup_filterMap_alerts (g : Metric → Option AlertMsg) (ms : List Metric)
    (m : Metric) (hm : m ∈ ms) (hnd : (ms.map Metric.name).Nodup) :
    alookup m.name (ms.filterMap (fun m' => (g m').map (fun msg => (m'.name, msg)))) = g m := by
  induction ms with
  | nil => cases hm
  | cons m0 t ih =>
    have hnd' : (∀ x ∈ t, ¬x.name = m0.name) ∧ (t.map Metric.name).Nodup := by
      simpa using hnd
    rcases List.mem_cons.1 hm with heq | hmt
    · rw [heq]
      rw [List.filterMap_cons]
      cases hg : g m0 with
      | none =>
        have hnm : m0.name ∉ t.map Metric.name := by
          intro hmem
          rcases List.mem_map.1 hmem with ⟨x, hx, hxe⟩
          exact hnd'.1 x hx hxe
        simpa using alookup_filterMap_none g t m0.name hnm
      | some msg => simp [alookup]
    · have hne : m0.name ≠ m.name := fun he => hnd'.1 m hmt he.symm
      rw [List.filterMap_cons]
      cases hg : g m0 with
      | none => simpa using ih hmt hnd'.2
      | some msg =>
        simp only [Option.map_some, alookup, hne, if_false]
        exact ih hmt hnd'.2

theorem tick_fold (cfg : DeviceConfig) (u : String → ℚ) (ms : List Metric) :
    ∀ (latest current : List (String × ℚ)) (alerts : List (String × AlertMsg)),
    (ms.map Metric.name).Nodup →
    (ms.foldl (tickStep cfg u) (latest, current, alerts)).2.1
      = current ++ ms.map (fun m => (m.name, round2 (metricNew latest u m))) ∧
    (ms.foldl (tickStep cfg u) (latest, current, alerts)).2.2
      = alerts ++ ms.filterMap (fun m =>
          (evalAlert (alertConfigOf cfg m) (metricNew latest u m)).map
            (fun msg => (m.name, msg))) := by
  induction ms with
  | nil => intro latest current alerts _; simp
  | cons m0 t ih =>
    intro latest current alerts hnd
    have hnd' : (∀ x ∈ t, ¬x.name = m0.name) ∧ (t.map Metric.name).Nodup := by
      simpa using hnd
    have hcongr : ∀ m ∈ t,
        metricNew (aset m0.name (metricNew latest u m0) latest) u m
          = metricNew latest u m := by
      intro m hmt
      have hne : m0.name ≠ m.name := fun he => hnd'.1 m hmt he.symm
      unfold metricNew
      rw [alookup_aset_ne _ _ _ _ hne]
    have hstep : tickStep cfg u (latest, current, alerts) m0 =
        (aset m0.name (metricNew latest u m0) latest,
         current ++ [(m0.name, round2 (metricNew latest u m0))],
         alerts ++ ((evalAlert (alertConfigOf cfg m0) (metricNew latest u m0)).map
           (fun msg => (m0.name, msg))).toList) := rfl
    rw [List.foldl_cons, hstep]
    obtain ⟨ih1, ih2⟩ := ih (aset m0.name (metricNew latest u m0) latest)
      (current ++ [(m0.name, round2 (metricNew latest u m0))])
      (alerts ++ ((evalAlert (alertConfigOf cfg m0) (metricNew latest u m0)).map
        (fun msg => (m0.name, msg))).toList) hnd'.2
    constructor
    · rw [ih1, List.map_congr_left (fun m hmt => by rw [hcongr m hmt])]
      simp
    · rw [ih2, List.filterMap_congr (fun m hmt => by rw [hcongr m hmt])]
      rw [List.filterMap_cons]
      cases hg : evalAlert (alertConfigOf cfg m0) (metricNew latest u m0) with
      | none => simp
      | some msg => simp

/-- Claim C1: every device's history buffer stays at length ≤ 100 across
an append (both the generator tick and the weather fetch go through the
bounded append), appends add at the tail, and on the 101st append into an
initially empty buffer the oldest reading is evicted: the result is
exactly the last 100 readings, so the first original reading is absent
(when it does not recur later) and the newest reading is present. -/
theorem history_fifo_bounded :
    (∀ (h : List Reading) (r : Reading), h.length ≤ 100 →
      (appendHistory h r).length ≤ 100) ∧
    (∀ (d : DynamicSimulatedDevice) (u : String → ℚ) (ts : String),
      d.data_history.length ≤ 100 → (runTick d u ts).data_history.length ≤ 100) ∧
    (∀ (w : WeatherStationDevice) (o : FetchOutcome) (ts : String),
      w.data_history.length ≤ 100 →
      (fetch_weather_data w o ts).data_history.length ≤ 100) ∧
    (∀ rs : List Reading, rs.length = 101 →
      foldHistory rs = rs.tail ∧
      (∀ r0, rs.head? = some r0 → r0 ∉ rs.tail → r0 ∉ foldHistory rs) ∧
      (∀ rl, rs.getLast? = some rl → rl ∈ foldHistory rs)) := by
  refine ⟨appendHistory_length_le, ?_, ?_, ?_⟩
  · intro d u ts h
    exact appendHistory_length_le _ _ h
  · intro w o ts h
    exact appendHistory_length_le _ _ h
  · intro rs h101
    have hfold := foldHistory_of_101 rs h101
    refine ⟨hfold, ?_, ?_⟩
    · intro r0 _ hnot
      rw [hfold]
      exact hnot
    · intro rl hl
      rw [hfold]
      have hne : rs ≠ [] := by
        intro hnil
        rw [hnil] at h101
        simp at h101
      obtain ⟨l, r, hrs⟩ : ∃ l r, rs = l ++ [r] :=
        ⟨rs.dropLast, rs.getLast hne, (List.dropLast_append_getLast hne).symm⟩
      subst hrs
      rw [List.getLast?_concat] at hl
      have hlne : l ≠ [] := by
        intro h0
        rw [h0] at h101
        simp at h101
      rw [List.tail_append_of_ne_nil hlne]
      refine List.mem_append_right _ ?_
      simp [Option.some.inj hl]

/-- Witness for C1 at a concrete run of 101 distinct readings. -/
theorem history_fifo_bounded_witness :
    fifoReadings.length = 101 ∧
    foldHistory fifoReadings = fifoReadings.tail ∧
    firstFifoReading ∉ foldHistory fifoReadings := by
  have hlen : fifoReadings.length = 101 := by decide
  have h := history_fifo_bounded.2.2.2 fifoReadings hlen
  exact ⟨hlen, h.1, h.2.1 firstFifoReading (by decide) (by decide)⟩

/-- Claim C2 counterexample: the alert check compares the
**full-precision** value against the bound, not the rounded reported
value. With max bound `24.9995` and internal value `24.999`, the reported
(rounded) value is `25.0 > 24.9995`, yet the tick raises no alert and the
status stays `Online`. -/
theorem rounded_value_no_alert :
    (runTick boundaryDevice halfDraw "12:00:00").alerts = [] ∧
    (runTick boundaryDevice halfDraw "12:00:00").status = "Online" ∧
    (runTick boundaryDevice halfDraw "12:00:00").data_history =
      [⟨"server-rack-01", "Server Room Sensor", "12:00:00", [("temperature", 25)]⟩] ∧
    (49999/2000 : ℚ) < 25 := by
  refine ⟨?_, ?_, ?_, by norm_num⟩ <;>
    norm_num [runTick, boundaryDevice, halfDraw, tickStep, newValue, clampBand,
      evalAlert, alookup, aset, appendHistory, round2, pyRoundInt,
      List.foldl_cons, List.foldl_nil, max_def, min_def]

/-- Claim C2 (amended): the generator's alert rule is evaluated on the
**full-precision** `new_val`, not the rounded reported value. For every
metric with configured max bound `M`: full-precision value `> M` implies
a high-alert for that metric in `current_alerts` and status `Alert`;
when no metric's evaluation produces an alert the status is `Online`;
and in every tick, status is `Alert` iff `current_alerts` is non-empty. -/
theorem generator_alert_rule (d : DynamicSimulatedDevice) (u : String → ℚ)
    (ts : String) (hnd : (d.metrics.map Metric.name).Nodup) :
    ((runTick d u ts).status = "Alert" ↔ (runTick d u ts).alerts ≠ []) ∧
    (∀ m ∈ d.metrics, ∀ M : ℚ, (alertConfigOf d.config m).max = some M →
      M < metricNew d.latest_data_values u m →
      alookup m.name (runTick d u ts).alerts = some (.high M) ∧
      (runTick d u ts).status = "Alert") ∧
    ((∀ m ∈ d.metrics,
        evalAlert (alertConfigOf d.config m) (metricNew d.latest_data_values u m) = none) →
      (runTick d u ts).status = "Online") := by
  obtain ⟨h1, h2⟩ :=
    tick_fold d.config u d.metrics d.latest_data_values [] [] hnd
  have halerts : (runTick d u ts).alerts
      = d.metrics.filterMap (fun m =>
          (evalAlert (alertConfigOf d.config m) (metricNew d.latest_data_values u m)).map
            (fun msg => (m.name, msg))) := by
    simpa using h2
  have hstatus : (runTick d u ts).status
      = (if (runTick d u ts).alerts = [] then "Online" else "Alert") := rfl
  have hOA : ("Online" : String) ≠ "Alert" := by decide
  have hiff : (runTick d u ts).status = "Alert" ↔ (runTick d u ts).alerts ≠ [] := by
    rw [hstatus]
    by_cases he : (runTick d u ts).alerts = []
    · simp [he, hOA]
    · simp [he]
  refine ⟨hiff, ?_, ?_⟩
  · intro m hm M hM hlt
    have hgm : evalAlert (alertConfigOf d.config m)
        (metricNew d.latest_data_values u m) = some (.high M) := by
      unfold evalAlert
      rw [hM]
      exact if_pos hlt
    have hfind : alookup m.name (runTick d u ts).alerts = some (.high M) := by
      rw [halerts, alookup_filterMap_alerts _ _ _ hm hnd, hgm]
    refine ⟨hfind, hiff.2 ?_⟩
    intro h0
    rw [h0] at hfind
    simp [alookup] at hfind
  · intro hall
    have hnil : (runTick d u ts).alerts = [] := by
      rw [halerts]
      refine List.filterMap_eq_nil.2 (fun m hm => ?_)
      rw [hall m hm]
      rfl
    rw [hstatus, if_pos hnil]

/-- Witness for C2's amended theorem: max bound 25, tick value 27 — the
high-alert fires and the status flips to `Alert`. -/
theorem generator_alert_rule_witness :
    alookup "temperature" (runTick alertingDevice halfDraw "12:00:00").alerts
      = some (.high 25) ∧
    (runTick alertingDevice halfDraw "12:00:00").status = "Alert" := by
  have h := (generator_alert_rule alertingDevice halfDraw "12:00:00"
    (by decide)).2.1 ⟨"temperature", "C", 20, 30⟩ (by decide) 25
    (by decide)
    (by norm_num [metricNew, alertingDevice, halfDraw, alookup, newValue,
      clampBand, max_def, min_def])
  simpa [alertingDevice] using h

theorem appendHistory_getLast (h : List Reading) (r : Reading) :
    (appendHistory h r).getLast? = some r := by
  unfold appendHistory
  split
  · next hgt =>
    have hne : h ≠ [] := by
      intro h0
      rw [h0] at hgt
      simp at hgt
    rw [List.tail_append_of_ne_nil hne, List.getLast?_concat]
  · rw [List.getLast?_concat]

/-- Claim C3 counterexample: on the metric range `[0, 0.015]` the clamp
band is `[-0.003, 0.018]`; a tick from previous value `0.01745` with draw
`0.99` clamps the full-precision value to `0.018`, but the **recorded**
value is its 2-decimal rounding `0.02`, which lies outside the band. -/
theorem narrow_band_overshoot :
    (runTick narrowDevice highDraw "12:00:00").data_history =
      [⟨"flow-meter", "Flow Sensor", "12:00:00", [("flow", 1/50)]⟩] ∧
    ¬ ((1/50 : ℚ) ≤ 3/200 + ((3:ℚ)/200 - 0) * (2/10)) := by
  constructor
  · norm_num [runTick, narrowDevice, highDraw, tickStep, newValue, clampBand,
      evalAlert, alookup, aset, appendHistory, round2, pyRoundInt,
      List.foldl_cons, List.foldl_nil, max_def, min_def]
  · norm_num

/-- Claim C3 (amended): each tick computes the metric's new
full-precision value as the previous value (the range midpoint right
after `__init__`) plus the perturbation `0.1·(max−min)·(u−0.5)`, clamped
to `[min − 0.2·range, max + 0.2·range]`; the full-precision value always
lies in that band, and the **recorded** value is its 2-decimal rounding,
which is guaranteed only to lie in the band widened by `1/200` on each
side (and can leave the exact band, see `narrow_band_overshoot`). -/
theorem generator_perturbation_clamp (d : DynamicSimulatedDevice)
    (u : String → ℚ) (ts : String) (hnd : (d.metrics.map Metric.name).Nodup)
    (m : Metric) (hm : m ∈ d.metrics) (hmm : m.min ≤ m.max) :
    metricNew d.latest_data_values u m
      = clampBand m ((alookup m.name d.latest_data_values).getD 0
          + (m.max - m.min) * (1/10) * (u m.name - 1/2)) ∧
    m.min - (m.max - m.min) * (2/10) ≤ metricNew d.latest_data_values u m ∧
    metricNew d.latest_data_values u m ≤ m.max + (m.max - m.min) * (2/10) ∧
    (runTick d u ts).data_history.getLast?
      = some ⟨d.device_id, d.device_type, ts,
          d.metrics.map (fun m' => (m'.name, round2 (metricNew d.latest_data_values u m')))⟩ ∧
    alookup m.name
        (d.metrics.map (fun m' => (m'.name, round2 (metricNew d.latest_data_values u m'))))
      = some (round2 (metricNew d.latest_data_values u m)) ∧
    m.min - (m.max - m.min) * (2/10) - 1/200
      ≤ round2 (metricNew d.latest_data_values u m) ∧
    round2 (metricNew d.latest_data_values u m)
      ≤ m.max + (m.max - m.min) * (2/10) + 1/200 ∧
    alookup m.name
        (mkDynamicDevice d.device_id d.device_type d.metrics (some d.config)).latest_data_values
      = some ((m.min + m.max) / 2) := by
  obtain ⟨h1, _⟩ :=
    tick_fold d.config u d.metrics d.latest_data_values [] [] hnd
  have hband := clampBand_mem m
    ((alookup m.name d.latest_data_values).getD 0
      + (m.max - m.min) * (1/10) * (u m.name - 1/2)) hmm
  have hself : metricNew d.latest_data_values u m
      = clampBand m ((alookup m.name d.latest_data_values).getD 0
          + (m.max - m.min) * (1/10) * (u m.name - 1/2)) := rfl
  have hlo := hself ▸ hband.1
  have hhi := hself ▸ hband.2
  have hround := round2_between hlo hhi
  have hlast : (runTick d u ts).data_history.getLast?
      = some ⟨d.device_id, d.device_type, ts,
          d.metrics.map (fun m' => (m'.name, round2 (metricNew d.latest_data_values u m')))⟩ := by
    have hcur : (runTick d u ts).data_history
        = appendHistory d.data_history ⟨d.device_id, d.device_type, ts,
            d.metrics.map (fun m' => (m'.name, round2 (metricNew d.latest_data_values u m')))⟩ := by
      show appendHistory d.data_history
          ⟨d.device_id, d.device_type, ts,
           (d.metrics.foldl (tickStep d.config u) (d.latest_data_values, [], [])).2.1⟩ = _
      rw [h1]
      simp
    rw [hcur, appendHistory_getLast]
  refine ⟨hself, hlo, hhi, hlast, ?_, hround.1, hround.2, ?_⟩
  · exact alookup_map_metrics _ d.metrics m hm hnd
  · exact alookup_map_metrics _ d.metrics m hm hnd

/-- Witness for C3's amended theorem on a freshly initialised device:
prev is the midpoint 25, draw 0.5 gives a zero perturbation, and the
recorded value 25 sits inside the widened band. -/
theorem generator_perturbation_clamp_witness :
    (runTick midDevice halfDraw "12:00:00").data_history.getLast?
      = some ⟨"rack-3", "Server Room Sensor", "12:00:00", [("temperature", 25)]⟩ ∧
    (20 : ℚ) - (30 - 20) * (2/10) - 1/200 ≤ 25 ∧
    (25 : ℚ) ≤ 30 + (30 - 20) * (2/10) + 1/200 := by
  refine ⟨?_, by norm_num, by norm_num⟩
  have h := generator_perturbation_clamp midDevice halfDraw "12:00:00"
    (by decide) ⟨"temperature", "C", 20, 30⟩ (by decide) (by norm_num)
  have hvals : midDevice.metrics.map
      (fun m' => (m'.name, round2 (metricNew midDevice.latest_data_values halfDraw m')))
      = [("temperature", 25)] := by
    norm_num [midDevice, mkDynamicDevice, metricNew, halfDraw, newValue,
      clampBand, alookup, round2, pyRoundInt, max_def, min_def]
  have hlast := h.2.2.2.1
  rw [hvals] at hlast
  exact hlast

/-- Claim C4 counterexample: `get_all_devices` skips a registered device
whose history is still empty (`if device.data_history:` at line 496), so
the listing does not contain one entry per registered device. -/
theorem idle_device_not_listed :
    get_all_devices idleRegistry = [] ∧
    containsKey "idle-dev" idleRegistry = true := by
  constructor
  · simp [get_all_devices, idleRegistry, Device.data_history, mkDynamicDevice,
      List.mergeSort_nil]
  · decide

/-- Claim C4 (amended): `get_all_devices` returns a sequence sorted in
ascending order of `device_id`, containing one entry — with id, type,
metrics, policy, status, latest values, current alerts and history
snapshot (`Device.view`) — for every registered device **whose history is
non-empty**; devices that have not yet recorded a reading are omitted. -/
theorem list_devices_sorted (reg : Registry) :
    List.Pairwise (fun a b : DeviceView => a.device_id ≤ b.device_id)
      (get_all_devices reg) ∧
    (∀ e : DeviceView, e ∈ get_all_devices reg ↔
      ∃ p ∈ reg, p.2.data_history ≠ [] ∧ e = p.2.view) := by
  constructor
  · refine List.Pairwise.imp (fun h => of_decide_eq_true h)
      (List.sorted_mergeSort ?_ ?_ _)
    · intro a b c hab hbc
      exact decide_eq_true
        (le_trans (of_decide_eq_true hab) (of_decide_eq_true hbc))
    · intro a b
      rcases le_total a.device_id b.device_id with h | h
      · rw [Bool.or_eq_true]
        exact Or.inl (decide_eq_true h)
      · rw [Bool.or_eq_true]
        exact Or.inr (decide_eq_true h)
  · intro e
    unfold get_all_devices
    rw [List.mem_mergeSort, List.mem_filterMap]
    constructor
    · rintro ⟨p, hp, hf⟩
      by_cases hh : p.2.data_history = []
      · rw [if_pos hh] at hf
        cases hf
      · rw [if_neg hh] at hf
        exact ⟨p, hp, hh, (Option.some.inj hf).symm⟩
    · rintro ⟨p, hp, hh, rfl⟩
      exact ⟨p, hp, by rw [if_neg hh]⟩

/-- Claim C5: the spec requires the registry lock to be released before
the persistence write. That holds for `add_device`, but `delete_device`
and `configure_device` call `save_state()` inside their `with
DEVICE_LOCK` block, so the durable write happens with the lock held — and
since `save_state` itself acquires the same non-reentrant
`threading.Lock`, a successful delete or reconfigure self-deadlocks. -/
theorem save_inside_lock_bug :
    writeUnderLock 0 (add_device_trace false false) = false ∧
    writeUnderLock 0 (add_device_trace false true) = false ∧
    writeUnderLock 0 (delete_device_trace false true) = true ∧
    writeUnderLock 0 (configure_device_trace false true) = true ∧
    acquiresHeldLock 0 (add_device_trace false false) = false ∧
    acquiresHeldLock 0 (delete_device_trace false true) = true ∧
    acquiresHeldLock 0 (configure_device_trace false true) = true := by
  decide

theorem save_keys_sublist (reg : Registry) :
    ((save_state reg).map Prod.fst).Sublist (reg.map Prod.fst) := by
  induction reg with
  | nil => simp [save_state]
  | cons p rest ih =>
    rcases p with ⟨pid, pdev⟩
    cases pdev with
    | dynamic d =>
      simpa [save_state, List.filterMap_cons] using List.Sublist.cons₂ pid ih
    | weather w =>
      simpa [save_state, List.filterMap_cons] using List.Sublist.cons pid ih

theorem load_fold (file : List (String × SavedDeviceInfo)) :
    ∀ acc : Registry,
    (file.map (fun p => lowerStr p.1)).Nodup →
    (∀ p ∈ file, alookup (lowerStr p.1) acc = none) →
    file.foldl (fun reg p =>
        start_dynamic_device reg p.1 p.2.device_type p.2.metrics (some p.2.config)) acc
      = acc ++ file.map (fun p =>
          (lowerStr p.1,
           Device.dynamic (mkDynamicDevice (lowerStr p.1) p.2.device_type
             p.2.metrics (some p.2.config)))) := by
  induction file with
  | nil => intro acc _ _; simp
  | cons p0 t ih =>
    intro acc hnd hnone
    have hnd' : (∀ x ∈ t, ¬lowerStr x.1 = lowerStr p0.1) ∧
        (t.map (fun p => lowerStr p.1)).Nodup := by simpa using hnd
    rw [List.foldl_cons]
    have hstep : start_dynamic_device acc p0.1 p0.2.device_type p0.2.metrics
        (some p0.2.config)
        = acc ++ [(lowerStr p0.1,
            Device.dynamic (mkDynamicDevice (lowerStr p0.1) p0.2.device_type
              p0.2.metrics (some p0.2.config)))] := by
      unfold start_dynamic_device
      exact aset_eq_append _ _ _ (hnone p0 (by simp))
    rw [hstep]
    have hrest := ih (acc ++ [(lowerStr p0.1,
        Device.dynamic (mkDynamicDevice (lowerStr p0.1) p0.2.device_type
          p0.2.metrics (some p0.2.config)))]) hnd'.2 ?_
    · rw [hrest]
      simp
    · intro q hq
      rw [alookup_append_of_none _ _ _ (hnone q (by simp [hq]))]
      have hne : lowerStr p0.1 ≠ lowerStr q.1 := fun he => hnd'.1 q hq he.symm
      simp [alookup, hne]

/-- Claim C6: the saved snapshot contains only definitions — it is
invariant under clearing every device's runtime state; every saved entry
comes from a `DynamicSimulatedDevice` (the weather device is never
written); and loading the saved file into an empty registry reconstructs,
for each saved generator device, a device with identical type, metrics
and policy, with a fresh empty history and `Online` status. -/
theorem persistence_roundtrip (reg : Registry) :
    (save_state (reg.map (fun p => (p.1, p.2.clearRuntime))) = save_state reg) ∧
    (∀ id info, (id, info) ∈ save_state reg →
      ∃ d, (id, Device.dynamic d) ∈ reg ∧
        info = ⟨d.device_type, d.metrics, d.config⟩) ∧
    ((reg.map Prod.fst).Nodup → (∀ p ∈ reg, lowerStr p.1 = p.1) →
      ∀ id d, (id, Device.dynamic d) ∈ reg →
      ∃ d', (id, Device.dynamic d') ∈ load_state (save_state reg) ∧
        d'.device_type = d.device_type ∧ d'.metrics = d.metrics ∧
        d'.config = d.config ∧ d'.data_history = [] ∧
        d'.status = "Online" ∧ d'.alerts = []) := by
  refine ⟨?_, ?_, ?_⟩
  · unfold save_state
    rw [List.filterMap_map]
    refine List.filterMap_congr (fun p _ => ?_)
    rcases p with ⟨pid, pdev⟩
    cases pdev <;> rfl
  · intro id info hmem
    rcases List.mem_filterMap.1 hmem with ⟨⟨pid, pdev⟩, hp, hf⟩
    cases pdev with
    | dynamic d =>
      simp only [save_state] at hf
      have h1 : pid = id ∧ (⟨d.device_type, d.metrics, d.config⟩ : SavedDeviceInfo) = info := by
        have := Option.some.inj hf
        exact ⟨congrArg Prod.fst this, congrArg Prod.snd this⟩
      exact ⟨d, h1.1 ▸ hp, h1.2.symm⟩
    | weather w => cases hf
  · intro hkeys hlower id d hmem
    have hfile : (id, (⟨d.device_type, d.metrics, d.config⟩ : SavedDeviceInfo))
        ∈ save_state reg :=
      List.mem_filterMap.2 ⟨(id, Device.dynamic d), hmem, rfl⟩
    have hkeys' : ∀ p ∈ save_state reg, lowerStr p.1 = p.1 := by
      intro p hp
      rcases List.mem_filterMap.1 hp with ⟨⟨qid, qdev⟩, hq, hf⟩
      cases qdev with
      | dynamic dq =>
        have : qid = p.1 := congrArg Prod.fst (Option.some.inj hf)
        exact this ▸ hlower _ hq
      | weather w => cases hf
    have hnodup : ((save_state reg).map (fun p => lowerStr p.1)).Nodup := by
      rw [List.map_congr_left hkeys']
      exact (save_keys_sublist reg).nodup hkeys
    have hload := load_fold (save_state reg) [] hnodup (fun p _ => rfl)
    have hlowid : lowerStr id = id := hlower _ hmem
    refine ⟨mkDynamicDevice id d.device_type d.metrics (some d.config), ?_,
      rfl, rfl, rfl, rfl, rfl, rfl⟩
    unfold load_state
    rw [hload, List.nil_append]
    have := List.mem_map_of_mem (fun p : String × SavedDeviceInfo =>
      (lowerStr p.1, Device.dynamic (mkDynamicDevice (lowerStr p.1)
        p.2.device_type p.2.metrics (some p.2.config)))) hfile
    simpa [hlowid] using this

/-- Witness for C6 at a registry holding the permanent weather station
and one generator device. -/
theorem persistence_roundtrip_witness :
    ∃ d', ("rack-1", Device.dynamic d') ∈ load_state (save_state mixedRegistry) ∧
      d'.device_type = rackDevice.device_type ∧ d'.metrics = rackDevice.metrics ∧
      d'.config = rackDevice.config ∧ d'.data_history = [] ∧
      d'.status = "Online" ∧ d'.alerts = [] :=
  (persistence_roundtrip mixedRegistry).2.2 (by decide) (by decide)
    "rack-1" rackDevice (by simp [mixedRegistry])

/-- Claim C7 counterexample: when the id already exists **and** the
metric list is empty, `add_device` returns the 400 invalid-request error
(the emptiness check at line 517 runs first), not `DuplicateId`. -/
theorem duplicate_with_empty_metrics :
    add_device dupRegistry "RACK-1" "Server Room Sensor" []
      = (.invalidRequest, dupRegistry) ∧
    containsKey "rack-1" dupRegistry = true ∧
    AddOutcome.invalidRequest ≠ AddOutcome.duplicateId := by
  refine ⟨rfl, by decide, by decide⟩

/-- Claim C7 (amended): `add_device` checks the empty-id / empty-metrics
condition first: an empty metric list always yields the invalid-request
error; with a non-empty metric list and a non-empty normalised id, an
already-registered id yields `DuplicateId`. In both error cases the
returned registry is the unchanged input — the existing device, its
history, and the device map are untouched and no new task is started. -/
theorem add_device_errors (reg : Registry) (raw_id dt : String)
    (metrics : List Metric) :
    (metrics = [] → add_device reg raw_id dt metrics = (.invalidRequest, reg)) ∧
    (metrics ≠ [] → lowerStr (trimStr raw_id) ≠ "" →
      containsKey (lowerStr (trimStr raw_id)) reg = true →
      add_device reg raw_id dt metrics = (.duplicateId, reg)) := by
  constructor
  · intro hm
    unfold add_device
    rw [if_pos (Or.inr hm)]
  · intro hm hid hdup
    unfold add_device
    rw [if_neg ?_, if_pos hdup]
    rintro (h | h)
    · exact hid h
    · exact hm h

/-- Witness for C7's amended theorem: re-creating the already-registered
id `rack-1` (spelled `Rack-1`) with a non-empty metric list. -/
theorem add_device_errors_witness :
    add_device dupRegistry "Rack-1" "Server Room Sensor"
      [⟨"temperature", "C", 20, 45⟩] = (.duplicateId, dupRegistry) :=
  (add_device_errors dupRegistry "Rack-1" "Server Room Sensor"
    [⟨"temperature", "C", 20, 45⟩]).2 (by decide) (by decide) (by decide)

/-- Claim C8: every fetch attempt of the weather poller appends exactly
one Reading through the bounded append, which lands at the tail; a
successful fetch records the extracted rainfall and sets status `Online`;
a reachable-but-erroring response sets status `API Error` (the code's
spelling of ApiError) and records the sentinel `-1`; an unreachable
transport sets status `Offline` and records the same sentinel; and the
sentinel rounds to `-1.0`. -/
theorem weather_fetch_outcomes (w : WeatherStationDevice) (o : FetchOutcome)
    (ts : String) :
    (fetch_weather_data w o ts).data_history
      = appendHistory w.data_history
          ⟨w.device_id, w.device_type, ts,
           [("rainfall", round2 (match o with | .ok rain => rain.getD 0 | _ => -1))]⟩ ∧
    (fetch_weather_data w o ts).data_history.getLast?
      = some ⟨w.device_id, w.device_type, ts,
           [("rainfall", round2 (match o with | .ok rain => rain.getD 0 | _ => -1))]⟩ ∧
    (∀ q : ℚ, o = .ok (some q) →
      (fetch_weather_data w o ts).status = "Online" ∧
      (fetch_weather_data w o ts).data_history.getLast?
        = some ⟨w.device_id, w.device_type, ts, [("rainfall", round2 q)]⟩) ∧
    (o = .httpError → (fetch_weather_data w o ts).status = "API Error") ∧
    (o = .transportFailure → (fetch_weather_data w o ts).status = "Offline") ∧
    ((o = .httpError ∨ o = .transportFailure) →
      (fetch_weather_data w o ts).data_history.getLast?
        = some ⟨w.device_id, w.device_type, ts, [("rainfall", -1)]⟩) ∧
    round2 (-1) = -1 := by
  have hr : round2 (-1) = -1 := by norm_num [round2, pyRoundInt]
  refine ⟨rfl, appendHistory_getLast _ _, ?_, ?_, ?_, ?_, hr⟩
  · intro q ho
    subst ho
    exact ⟨rfl, appendHistory_getLast _ _⟩
  · intro ho
    subst ho
    rfl
  · intro ho
    subst ho
    rfl
  · intro ho
    rcases ho with rfl | rfl <;>
      [skip; skip] <;>
      · show (appendHistory w.data_history
            ⟨w.device_id, w.device_type, ts, [("rainfall", round2 (-1))]⟩).getLast? = _
        rw [hr]
        exact appendHistory_getLast _ _

/-- Witness for C8 at a transport failure on the fresh weather station:
status `Offline` and one appended reading with rainfall `-1`. -/
theorem weather_fetch_outcomes_witness :
    (fetch_weather_data (mkWeatherStation "pachora-weather" "Real-Time Weather Station")
      .transportFailure "12:00:00").status = "Offline" ∧
    (fetch_weather_data (mkWeatherStation "pachora-weather" "Real-Time Weather Station")
      .transportFailure "12:00:00").data_history.getLast?
      = some ⟨"pachora-weather", "Real-Time Weather Station", "12:00:00",
              [("rainfall", -1)]⟩ := by
  have h := weather_fetch_outcomes
    (mkWeatherStation "pachora-weather" "Real-Time Weather Station")
    .transportFailure "12:00:00"
  exact ⟨h.2.2.2.2.1 rfl, h.2.2.2.2.2.1 (Or.inr rfl)⟩

/-- Claim C9: a delete or reconfigure request whose id lower-cases to the
permanent weather-station id returns the 403 Forbidden error and returns
the registry unchanged: the device stays registered with its task and
policy untouched. -/
theorem permanent_device_forbidden (reg : Registry) (raw : String)
    (cfg : DeviceConfig) (h : lowerStr raw = "pachora-weather") :
    delete_device reg raw = (.forbidden, reg) ∧
    configure_device reg raw cfg = (.forbidden, reg) := by
  constructor <;> simp [delete_device, configure_device, h]

/-- Witness for C9: deleting / reconfiguring `PACHORA-WEATHER` on a
registry that contains the weather station. -/
theorem permanent_device_forbidden_witness :
    delete_device mixedRegistry "PACHORA-WEATHER" = (.forbidden, mixedRegistry) ∧
    configure_device mixedRegistry "PACHORA-WEATHER" ⟨[]⟩
      = (.forbidden, mixedRegistry) :=
  permanent_device_forbidden mixedRegistry "PACHORA-WEATHER" ⟨[]⟩ (by decide)

/-- Claim C10: the Forbidden check precedes the registry lookup: the
permanent id gets 403 even when absent from the registry, while any other
absent id gets 404 NotFound. -/
theorem forbidden_before_lookup (reg : Registry) (raw : String)
    (cfg : DeviceConfig) :
    (lowerStr raw = "pachora-weather" →
      (delete_device reg raw).1 = .forbidden ∧
      (configure_device reg raw cfg).1 = .forbidden) ∧
    (lowerStr raw ≠ "pachora-weather" →
      containsKey (lowerStr raw) reg = false →
      (delete_device reg raw).1 = .notFound ∧
      (configure_device reg raw cfg).1 = .notFound) := by
  constructor
  · intro h
    constructor <;> simp [delete_device, configure_device, h]
  · intro h hnone
    have halo : alookup (lowerStr raw) reg = none := by
      cases halo : alookup (lowerStr raw) reg with
      | none => rfl
      | some v =>
        rw [containsKey, halo] at hnone
        simp at hnone
    constructor
    · simp [delete_device, h, hnone]
    · simp [configure_device, h, halo]

/-- Witness for C10 on the empty registry: the permanent id is Forbidden
even though no weather station is registered; an unknown id is NotFound. -/
theorem forbidden_before_lookup_witness :
    (delete_device [] "PACHORA-WEATHER").1 = .forbidden ∧
    (configure_device [] "PACHORA-WEATHER" ⟨[]⟩).1 = .forbidden ∧
    (delete_device [] "ghost-device").1 = .notFound ∧
    (configure_device [] "ghost-device" ⟨[]⟩).1 = .notFound := by
  have h1 := (forbidden_before_lookup [] "PACHORA-WEATHER" ⟨[]⟩).1 (by decide)
  have h2 := (forbidden_before_lookup [] "ghost-device" ⟨[]⟩).2 (by decide) (by decide)
  exact ⟨h1.1, h1.2, h2.1, h2.2⟩
